import Mathlib

set_option autoImplicit false

/-
  Verification of the PredictOS multi-provider AI-call gateway and the
  Polymarket client wrapper, as a shallow embedding in Lean 4.

  Sources embedded:
  - src/supabase/functions/_shared/ai/callBlockRun.ts
  - src/supabase/functions/event-analysis-agent/index.ts (router)
  - src/unnamed/part_000 (PolymarketClient)

  Conventions of the embedding:
  - JavaScript strings are Lean String; machine numbers used here are
    non-negative integers in the source (HTTP statuses, millisecond
    durations, token counts), embedded as Nat; epoch-second arithmetic
    that can go below zero uses Int; Polymarket prices/sizes use Rat.
  - Optional / possibly-undefined fields are Option.
  - JavaScript falsy-defaulting (x || d) is jsOrNat / jsOrStr below.
  - Network I/O is an explicit environment: each fetch has an outcome
    supplied by the environment, and each run produces a trace
    (attempt count, sleep durations, paid-request count).
-/

/-! ### JavaScript string primitives -/

/-- Model of the test used by JS String.startsWith, over char lists. -/
def listStarts : List Char → List Char → Bool
  | [], _ => true
  | _ :: _, [] => false
  | p :: ps, c :: cs => p == c && listStarts ps cs

/-- Model of the containment test used by JS String.includes, over char lists. -/
def listHas (pat : List Char) : List Char → Bool
  | [] => pat.isEmpty
  | c :: cs => listStarts pat (c :: cs) || listHas pat cs

/-- JS s.includes(pat). -/
def strIncludes (s pat : String) : Bool := listHas pat.data s.data

/-- JS s.startsWith(pat). -/
def strStartsWith (s pat : String) : Bool := listStarts pat.data s.data

/-- JS s.toLowerCase() (ASCII, which is all the classifier compares). -/
def strToLower (s : String) : String := String.mk (s.data.map Char.toLower)

/-! ### JavaScript falsy-defaulting -/

/-- JS (x || d) for an optional number: undefined and 0 are falsy. -/
def jsOrNat : Option Nat → Nat → Nat
  | none, d => d
  | some 0, d => d
  | some (n + 1), _ => n + 1

/-- JS (x || d) for an optional string: undefined and the empty string are falsy. -/
def jsOrStr : Option String → String → String
  | none, d => d
  | some s, d => if s = "" then d else s

/-- JS truthiness of an optional string. -/
def jsTruthyStr : Option String → Bool
  | none => false
  | some s => !(s == "")

/-- JS (a || b) when the result may itself be undefined. -/
def jsOrOpt (a b : Option String) : Option String := if jsTruthyStr a then a else b

/-- JS (a || b || d) for optional strings with a string default. -/
def jsStr3 (a b : Option String) (d : String) : String := jsOrStr a (jsOrStr b d)

namespace BlockRun

/-- A thrown JS Error value: its name ("Error", "AbortError", ...) and message. -/
structure JsError where
  name : String
  message : String
deriving DecidableEq, Repr

/-! ### Model routing (callBlockRun.ts lines 37-85, event-analysis-agent lines 33-55) -/

/-- BLOCKRUN_MODELS alias map (callBlockRun.ts lines 37-62), as an association list. -/
def BLOCKRUN_MODELS : List (String × String) :=
  [("blockrun/gpt-4o", "openai/gpt-4o"),
   ("blockrun/gpt-4o-mini", "openai/gpt-4o-mini"),
   ("blockrun/gpt-4.1", "openai/gpt-4.1"),
   ("blockrun/gpt-5", "openai/gpt-5"),
   ("blockrun/o1", "openai/o1"),
   ("blockrun/o3-mini", "openai/o3-mini"),
   ("blockrun/claude-sonnet-4", "anthropic/claude-sonnet-4"),
   ("blockrun/claude-opus-4", "anthropic/claude-opus-4"),
   ("blockrun/claude-haiku", "anthropic/claude-3-5-haiku-latest"),
   ("blockrun/grok-3", "xai/grok-3"),
   ("blockrun/grok-3-fast", "xai/grok-3-fast"),
   ("blockrun/grok-3-mini", "xai/grok-3-mini"),
   ("blockrun/gemini-2.5-pro", "google/gemini-2.5-pro-preview-06-05"),
   ("blockrun/gemini-2.5-flash", "google/gemini-2.5-flash-preview-05-20"),
   ("blockrun/deepseek-chat", "deepseek/deepseek-chat"),
   ("blockrun/deepseek-reasoner", "deepseek/deepseek-reasoner"),
   ("blockrun/qwen-max", "qwen/qwen-max"),
   ("blockrun/qwen-plus", "qwen/qwen-plus")]

/-- isBlockRunModel (callBlockRun.ts lines 67-69): startsWith "blockrun/"
    or the model is a key of BLOCKRUN_MODELS. -/
def isBlockRunModel (model : String) : Bool :=
  strStartsWith model "blockrun/" || BLOCKRUN_MODELS.any (fun p => p.1 == model)

/-- getBlockRunModelId (callBlockRun.ts lines 74-85): resolve an alias;
    otherwise return the model unchanged (both the has-slash branch and the
    final fallback branch of the source return the input as-is). -/
def getBlockRunModelId (model : String) : String :=
  match BLOCKRUN_MODELS.find? (fun p => p.1 == model) with
  | some p => p.2
  | none => model

/-- OPENAI_MODELS allow-list (event-analysis-agent/index.ts line 34). -/
def OPENAI_MODELS : List String :=
  ["gpt-5.2", "gpt-5.1", "gpt-5-nano", "gpt-4.1", "gpt-4.1-mini"]

/-- isOpenAIModel (event-analysis-agent/index.ts lines 39-41). -/
def isOpenAIModel (model : String) : Bool :=
  OPENAI_MODELS.contains model || strStartsWith model "gpt-"

/-- Provider tags returned by getAIProvider. -/
inductive Provider where
  | blockrun
  | openai
  | grok
deriving DecidableEq, Repr

/-- getAIProvider (event-analysis-agent/index.ts lines 47-55). -/
def getAIProvider (model : String) : Provider :=
  if isBlockRunModel model then Provider.blockrun
  else if isOpenAIModel model then Provider.openai
  else Provider.grok

/-! ### Retry classifier and backoff (callBlockRun.ts lines 90-103, 344/416/441) -/

/-- isRetryableError (callBlockRun.ts lines 90-103). The argument models a
    thrown Error instance (values that are not Errors yield false in the
    source and never arise in the loop below). -/
def isRetryableError (e : JsError) : Bool :=
  strIncludes (strToLower e.message) "connection" ||
  strIncludes (strToLower e.message) "tls" ||
  strIncludes (strToLower e.message) "timeout" ||
  strIncludes (strToLower e.message) "eof" ||
  strIncludes (strToLower e.message) "network" ||
  strIncludes (strToLower e.message) "fetch failed"

/-- Backoff delay before the attempt following attempt i:
    Math.min(1000 * Math.pow(2, attempt), 10000), computed identically at
    callBlockRun.ts lines 344, 416 and 441. -/
def backoff (i : Nat) : Nat := min (1000 * 2 ^ i) 10000

/-! ### Payment requirements and the x402 authorization
    (callBlockRun.ts lines 142-246, BlockRunPaymentRequirements fields as
    read by callBlockRun.ts) -/

/-- One accepted payment option of a 402 challenge. -/
structure PaymentRequirement where
  network : String
  asset : String
  payTo : String
  amount : Option String
  maxAmountRequired : Option String
  maxTimeoutSeconds : Option Nat
  scheme : Option String
  extraName : Option String
  extraVersion : Option String
  x402Version : Option Nat
deriving DecidableEq, Repr

/-- Lowercase hex digit, as produced by JS Number.toString(16). -/
def hexDigitChar (n : Nat) : Char :=
  if n < 10 then Char.ofNat (48 + n) else Char.ofNat (87 + n)

/-- One byte rendered as two lowercase hex digits:
    b.toString(16).padStart(2, the zero character). -/
def byteToHex (b : Fin 256) : String :=
  String.mk [hexDigitChar (b.val / 16), hexDigitChar (b.val % 16)]

/-- createNonce (callBlockRun.ts lines 142-146). The 32 bytes produced by
    crypto.getRandomValues are the explicit randomBytes argument. -/
def createNonce (randomBytes : List (Fin 256)) : String :=
  "0x" ++ String.join (randomBytes.map byteToHex)

/-- The EIP-3009 authorization object built at callBlockRun.ts lines 164-177.
    The source stores validAfter/validBefore as decimal strings of the same
    integers; they are kept as Int here. -/
structure PaymentAuthorization where
  fromAddress : String
  toAddress : String
  value : String
  validAfter : Int
  validBefore : Int
  nonce : String
deriving DecidableEq, Repr

/-- Authorization construction inside createBlockRunPaymentHeader
    (callBlockRun.ts lines 164-177): now is Math.floor(Date.now() / 1000),
    validAfter = now - 600, validBefore = now + (maxTimeoutSeconds || 300),
    value = amount || maxAmountRequired || "0". -/
def createAuthorization (fromAddress : String) (req : PaymentRequirement)
    (now : Nat) (randomBytes : List (Fin 256)) : PaymentAuthorization :=
  { fromAddress := fromAddress
    toAddress := req.payTo
    value := jsStr3 req.amount req.maxAmountRequired "0"
    validAfter := (now : Int) - 600
    validBefore := (now : Int) + (jsOrNat req.maxTimeoutSeconds 300 : Nat)
    nonce := createNonce randomBytes }

/-- Decimal-digit parse standing for BigInt(string); the digit strings the
    gateway receives are exactly the inputs on which BigInt succeeds, and
    BigInt of the empty string is 0. -/
def parseBigIntNat (s : String) : Option Nat :=
  if s.data.all Char.isDigit then
    some (s.data.foldl (fun acc c => acc * 10 + (c.toNat - 48)) 0)
  else none

/-- Left-pad a decimal rendering to six digits. -/
def padSix (n : Nat) : String :=
  String.mk (List.replicate (6 - (toString n).length) '0') ++ toString n

/-- formatUsdcCost (callBlockRun.ts lines 238-246): atomic USDC units to a
    dollar string with six decimals. The source divides in floating point and
    uses toFixed(6); this embedding renders the exact decimal, which agrees
    on the amounts representable exactly; no claim inspects this string. -/
def formatUsdcCost (atomicUnits : String) : String :=
  match parseBigIntNat atomicUnits with
  | some n => "$" ++ toString (n / 1000000) ++ "." ++ padSix (n % 1000000)
  | none => "Unknown"

/-! ### Raw responses (the JSON bodies read at callBlockRun.ts lines 328/425,
    consumed by transformToResponseResult lines 455-508) -/

/-- choices[i].message of an OpenAI-compatible payload. -/
structure RawMessage where
  content : Option String
  role : Option String
deriving DecidableEq, Repr

/-- One element of the choices array. -/
structure RawChoice where
  message : Option RawMessage
  index : Option Nat
  finishReason : Option String
deriving DecidableEq, Repr

/-- The usage object of an OpenAI-compatible payload. -/
structure RawUsage where
  promptTokens : Option Nat
  completionTokens : Option Nat
  totalTokens : Option Nat
deriving DecidableEq, Repr

/-- A raw OpenAI-compatible response body; every field the transformer reads
    is optional. -/
structure RawResponse where
  choices : Option (List RawChoice)
  usage : Option RawUsage
  created : Option Nat
  id : Option String
  model : Option String
  citations : Option (List String)
deriving DecidableEq, Repr

/-- Decoded view of the payment-required header value: either atob/JSON.parse
    throws (carrying the parse exception), or it yields a JSON object whose
    accepts field is absent (JS then wraps the object itself as the single
    option, callBlockRun.ts line 363) or present (possibly empty, since an
    empty array is truthy in JS). -/
inductive DecodedHeader where
  | malformed (e : JsError)
  | parsed (x402Version : Option Nat) (accepts : Option (List PaymentRequirement))
      (selfOption : PaymentRequirement)
deriving DecidableEq, Repr

deriving instance DecidableEq for Except

/-- An HTTP response as observed by the gateway: status line data, the body
    as text (response.text()), the payment-required header decoded (none =
    header absent), and the outcome of response.json(). -/
structure HttpResponse where
  status : Nat
  statusText : String
  bodyText : String
  paymentHeader : Option DecodedHeader
  jsonBody : Except JsError RawResponse
deriving DecidableEq, Repr

/-- response.ok: status in the 200-299 range. -/
def respOk (r : HttpResponse) : Bool := 200 ≤ r.status && r.status ≤ 299

/-! ### Timeout-bounded fetch (callBlockRun.ts lines 115-137) -/

/-- Outcome of the underlying transport for one fetch: a response, or a
    thrown error. The cancellation signal firing surfaces as a thrown error
    whose name is AbortError. -/
inductive TransportOutcome where
  | ok (resp : HttpResponse)
  | thrown (e : JsError)

/-- Result of fetchWithTimeout together with whether clearTimeout disarmed
    the cancellation timer. -/
structure FetchOut where
  result : Except JsError HttpResponse
  timerCleared : Bool

/-- fetchWithTimeout (callBlockRun.ts lines 115-137): an AbortError becomes
    a timeout error carrying the configured duration, any other failure
    propagates unchanged, and clearTimeout runs on both paths. -/
def fetchWithTimeout (outcome : TransportOutcome) (timeoutMs : Nat) : FetchOut :=
  match outcome with
  | .ok resp => { result := Except.ok resp, timerCleared := true }
  | .thrown e =>
      if e.name = "AbortError" then
        { result := Except.error
            { name := "Error"
              message := "Request timeout after " ++ toString timeoutMs ++ "ms" }
          timerCleared := true }
      else
        { result := Except.error e, timerCleared := true }

/-! ### Response normalization (callBlockRun.ts lines 455-508) -/

/-- One content fragment of the normalized output message. -/
structure OutputContent where
  type : String
  text : String
deriving DecidableEq, Repr

/-- The single normalized output message. -/
structure OutputMessage where
  content : List OutputContent
  id : String
  role : String
  type : String
  status : String
deriving DecidableEq, Repr

/-- Normalized usage counters. -/
structure UsageCounters where
  inputTokens : Nat
  outputTokens : Nat
  totalTokens : Nat
deriving DecidableEq, Repr

/-- BlockRun-specific metadata of the normalized result. -/
structure BlockRunMeta where
  paymentCost : Option String
  citations : Option (List String)
deriving DecidableEq, Repr

/-- The normalized BlockRunResponseResult (temperature and top_p, which the
    source always sets to null, are omitted). -/
structure BlockRunResponseResult where
  createdAt : Nat
  id : String
  model : String
  object : String
  output : List OutputMessage
  usage : UsageCounters
  status : String
  blockrun : BlockRunMeta
deriving DecidableEq, Repr

/-- transformToResponseResult (callBlockRun.ts lines 455-508). nowMs stands
    for Date.now() at transformation time (the created fallback divides it
    by 1000). -/
def transformToResponseResult (response : RawResponse) (paymentCost : Option String)
    (nowMs : Nat) : BlockRunResponseResult :=
  { createdAt := jsOrNat response.created (nowMs / 1000)
    id := jsOrStr response.id ("blockrun-" ++ toString nowMs)
    model := jsOrStr response.model "unknown"
    object := "response"
    output :=
      [{ content :=
           [{ type := "output_text"
              text :=
                match (response.choices.getD []).head? with
                | none => ""
                | some c =>
                    match c.message with
                    | none => ""
                    | some m => jsOrStr m.content "" }]
         id := "msg-" ++ toString nowMs
         role := "assistant"
         type := "message"
         status := "completed" }]
    usage :=
      { inputTokens := jsOrNat ((response.usage.getD ⟨none, none, none⟩).promptTokens) 0
        outputTokens := jsOrNat ((response.usage.getD ⟨none, none, none⟩).completionTokens) 0
        totalTokens := jsOrNat ((response.usage.getD ⟨none, none, none⟩).totalTokens) 0 }
    status := "completed"
    blockrun := { paymentCost := paymentCost, citations := response.citations } }

/-! ### The 402 challenge parse (callBlockRun.ts lines 358-374) -/

/-- The message wrapping applied by the catch at callBlockRun.ts line 373:
    JS template interpolation of an Error renders "name: message". -/
def wrapParseError (e : JsError) : JsError :=
  { name := "Error"
    message := "Failed to parse payment requirements: " ++ e.name ++ ": " ++ e.message }

/-- The try block of callBlockRun.ts lines 359-374: decode, pick the Base
    network option (network "eip155:8453" or "base"), set x402Version with
    default 2; every exception is rethrown wrapped by wrapParseError. -/
def parsePaymentRequirements (d : DecodedHeader) : Except JsError PaymentRequirement :=
  match d with
  | .malformed e => Except.error (wrapParseError e)
  | .parsed v accepts selfOption =>
      let acc := match accepts with
        | some l => l
        | none => [selfOption]
      match acc.find? (fun a => a.network == "eip155:8453" || a.network == "base") with
      | none =>
          Except.error (wrapParseError
            { name := "Error", message := "BlockRun does not accept Base network payments" })
      | some baseOption =>
          Except.ok { baseOption with x402Version := some (jsOrNat v 2) }

/-! ### One attempt of the retry loop (callBlockRun.ts lines 307-446) -/

/-- How the try block of one loop iteration ends: return a result, throw an
    error (to the catch at line 430), or set lastError, sleep and continue
    (the two in-try retry paths at lines 342-348 and 414-420). -/
inductive TryOutcome where
  | ret (r : BlockRunResponseResult)
  | thrown (e : JsError)
  | cont (e : JsError)
deriving DecidableEq, Repr

/-- The shared decision applied to a non-ok, non-402 response status (lines
    337-349) and to a non-ok paid response status (lines 410-421): 4xx other
    than 429 throws; otherwise retry while attempts remain, else throw. -/
def errorStatusOutcome (status : Nat) (err : JsError) (attempt maxRetries : Nat) : TryOutcome :=
  if 400 ≤ status ∧ status < 500 ∧ status ≠ 429 then TryOutcome.thrown err
  else if attempt < maxRetries then TryOutcome.cont err
  else TryOutcome.thrown err

/-- Result of one try-block execution: its outcome, whether a paid request
    was issued, and the (possibly updated) paymentCost variable. -/
structure AttemptStep where
  outcome : TryOutcome
  paidIssued : Bool
  paymentCost : Option String
deriving DecidableEq, Repr

/-- Environment of one attempt: the transport outcome of the initial request,
    of the awaited createBlockRunPaymentHeader call (whose pure authorization
    content is createAuthorization above; only success or a thrown error
    matters to the loop), and of the paid request. -/
structure AttemptEnv where
  initial : TransportOutcome
  sign : Except JsError String
  paid : TransportOutcome

/-- The try block of one iteration of the retry loop (callBlockRun.ts lines
    308-429), with the 120000 ms timeout of lines 321 and 401. -/
def tryAttempt (env : AttemptEnv) (attempt maxRetries : Nat)
    (paymentCost : Option String) (nowMs : Nat) : AttemptStep :=
  match (fetchWithTimeout env.initial 120000).result with
  | .error e => { outcome := TryOutcome.thrown e, paidIssued := false, paymentCost := paymentCost }
  | .ok resp =>
    if resp.status ≠ 402 then
      if respOk resp then
        match resp.jsonBody with
        | .error e =>
            { outcome := TryOutcome.thrown e, paidIssued := false, paymentCost := paymentCost }
        | .ok raw =>
            { outcome := TryOutcome.ret (transformToResponseResult raw paymentCost nowMs)
              paidIssued := false, paymentCost := paymentCost }
      else
        { outcome :=
            errorStatusOutcome resp.status
              { name := "Error"
                message := "BlockRun API error: " ++ toString resp.status ++ " " ++
                  resp.statusText ++ " - " ++ resp.bodyText }
              attempt maxRetries
          paidIssued := false, paymentCost := paymentCost }
    else
      match resp.paymentHeader with
      | none =>
          { outcome := TryOutcome.thrown
              { name := "Error"
                message := "BlockRun returned 402 but no payment-required header found" }
            paidIssued := false, paymentCost := paymentCost }
      | some d =>
        match parsePaymentRequirements d with
        | .error e =>
            { outcome := TryOutcome.thrown e, paidIssued := false, paymentCost := paymentCost }
        | .ok req =>
          match env.sign with
          | .error e =>
              { outcome := TryOutcome.thrown e, paidIssued := false
                paymentCost := some (formatUsdcCost (jsStr3 req.amount req.maxAmountRequired "0")) }
          | .ok _header =>
            match (fetchWithTimeout env.paid 120000).result with
            | .error e =>
                { outcome := TryOutcome.thrown e, paidIssued := true
                  paymentCost := some (formatUsdcCost (jsStr3 req.amount req.maxAmountRequired "0")) }
            | .ok presp =>
              if respOk presp then
                match presp.jsonBody with
                | .error e =>
                    { outcome := TryOutcome.thrown e, paidIssued := true
                      paymentCost :=
                        some (formatUsdcCost (jsStr3 req.amount req.maxAmountRequired "0")) }
                | .ok raw =>
                    { outcome := TryOutcome.ret (transformToResponseResult raw
                        (some (formatUsdcCost (jsStr3 req.amount req.maxAmountRequired "0"))) nowMs)
                      paidIssued := true
                      paymentCost :=
                        some (formatUsdcCost (jsStr3 req.amount req.maxAmountRequired "0")) }
              else
                { outcome :=
                    errorStatusOutcome presp.status
                      { name := "Error"
                        message := "BlockRun payment failed: " ++ toString presp.status ++ " " ++
                          presp.statusText ++ " - " ++ presp.bodyText }
                      attempt maxRetries
                  paidIssued := true
                  paymentCost :=
                    some (formatUsdcCost (jsStr3 req.amount req.maxAmountRequired "0")) }

/-! ### The retry loop (callBlockRun.ts lines 303-449) -/

/-- Terminal outcome of callBlockRunResponses: the returned result or the
    thrown error. -/
inductive RunResult where
  | success (r : BlockRunResponseResult)
  | failure (e : JsError)
deriving DecidableEq, Repr

/-- A run with its observable trace: result, number of attempts issued,
    sleep durations in order, and number of paid requests issued. -/
structure RunOut where
  result : RunResult
  attempts : Nat
  sleeps : List Nat
  paidRequests : Nat
deriving DecidableEq, Repr

/-- The for loop of callBlockRunResponses (lines 307-447) plus the final
    throw of line 449 (also taken if the environment list runs out). Each
    iteration consumes one AttemptEnv. The catch block (lines 430-446)
    rethrows immediately when the error is non-retryable on attempt 0,
    rethrows when attempts are exhausted, and otherwise sleeps and retries. -/
def runLoop (nowMs maxRetries : Nat) :
    List AttemptEnv → Nat → Option JsError → Option String → RunOut
  | [], _, lastError, _ =>
      { result := RunResult.failure
          (lastError.getD { name := "Error", message := "Unknown error occurred" })
        attempts := 0, sleeps := [], paidRequests := 0 }
  | env :: rest, attempt, _lastError, paymentCost =>
      let step := tryAttempt env attempt maxRetries paymentCost nowMs
      let paidN : Nat := if step.paidIssued then 1 else 0
      match step.outcome with
      | TryOutcome.ret r =>
          { result := RunResult.success r, attempts := 1, sleeps := [], paidRequests := paidN }
      | TryOutcome.cont e =>
          let rec1 := runLoop nowMs maxRetries rest (attempt + 1) (some e) step.paymentCost
          { result := rec1.result, attempts := rec1.attempts + 1
            sleeps := backoff attempt :: rec1.sleeps, paidRequests := rec1.paidRequests + paidN }
      | TryOutcome.thrown e =>
          if !(isRetryableError e) && attempt == 0 then
            { result := RunResult.failure e, attempts := 1, sleeps := [], paidRequests := paidN }
          else if maxRetries ≤ attempt then
            { result := RunResult.failure e, attempts := 1, sleeps := [], paidRequests := paidN }
          else
            let rec2 := runLoop nowMs maxRetries rest (attempt + 1) (some e) step.paymentCost
            { result := rec2.result, attempts := rec2.attempts + 1
              sleeps := backoff attempt :: rec2.sleeps, paidRequests := rec2.paidRequests + paidN }

/-- callBlockRunResponses (callBlockRun.ts lines 259-450), from the start of
    the retry loop: attempt 0, no lastError, no paymentCost. -/
def callBlockRunResponses (nowMs maxRetries : Nat) (envs : List AttemptEnv) : RunOut :=
  runLoop nowMs maxRetries envs 0 none none

/-- The character sequence of the joined hex rendering of a byte list. -/
def hexChars : List (Fin 256) → List Char
  | [] => []
  | b :: bs => hexDigitChar (b.val / 16) :: hexDigitChar (b.val % 16) :: hexChars bs

/-! ### Concrete environments used by the claim checks -/

/-- An attempt whose initial request returns HTTP 503 with an empty body. -/
def env503 : AttemptEnv :=
  { initial := TransportOutcome.ok
      { status := 503, statusText := "Service Unavailable", bodyText := ""
        paymentHeader := none
        jsonBody := Except.error { name := "SyntaxError", message := "Unexpected end of JSON input" } }
    sign := Except.ok "header"
    paid := TransportOutcome.thrown { name := "Error", message := "unused" } }

/-- An attempt whose initial request returns HTTP 404 with an empty body. -/
def env404 : AttemptEnv :=
  { initial := TransportOutcome.ok
      { status := 404, statusText := "Not Found", bodyText := ""
        paymentHeader := none
        jsonBody := Except.error { name := "SyntaxError", message := "Unexpected end of JSON input" } }
    sign := Except.ok "header"
    paid := TransportOutcome.thrown { name := "Error", message := "unused" } }

/-- A payment option on Ethereum mainnet, not on Base. -/
def ethOption : PaymentRequirement :=
  { network := "eip155:1", asset := "0xAsset", payTo := "0xPay", amount := some "1000"
    maxAmountRequired := none, maxTimeoutSeconds := some 300, scheme := some "exact"
    extraName := none, extraVersion := none, x402Version := none }

/-- An attempt whose initial request returns a 402 whose accepts list holds
    only the Ethereum option, so no Base network option matches. -/
def envBadNet : AttemptEnv :=
  { initial := TransportOutcome.ok
      { status := 402, statusText := "Payment Required", bodyText := ""
        paymentHeader := some (DecodedHeader.parsed (some 2) (some [ethOption]) ethOption)
        jsonBody := Except.error { name := "SyntaxError", message := "not json" } }
    sign := Except.ok "header"
    paid := TransportOutcome.thrown { name := "Error", message := "unused" } }

/-- A concrete requirement with a 120-second authorization window. -/
def c4req : PaymentRequirement :=
  { network := "base", asset := "0xAsset", payTo := "0xPay", amount := some "1000"
    maxAmountRequired := none, maxTimeoutSeconds := some 120, scheme := some "exact"
    extraName := none, extraVersion := none, x402Version := none }

/-- A concrete 32-byte random draw. -/
def c4bytes1 : List (Fin 256) := List.replicate 32 (0 : Fin 256)

/-- A different concrete 32-byte random draw. -/
def c4bytes2 : List (Fin 256) := (1 : Fin 256) :: List.replicate 31 (0 : Fin 256)


end BlockRun

namespace Poly

/-! ### PolymarketClient log store (src/unnamed/part_000 lines 36-68,
    utils.ts createLogEntry)

    JS arrays are mutable references; the heap is a list of arrays addressed
    by index, so that the spread copy in getLogs and aliasing are visible. -/

/-- Log severity (BotLogEntry.level union type). -/
inductive LogLevel where
  | info
  | warn
  | error
  | success
deriving DecidableEq, Repr

/-- BotLogEntry (polymarket/types.ts); details marshals the opaque record. -/
structure BotLogEntry where
  timestamp : String
  level : LogLevel
  message : String
  details : Option (List (String × String))
deriving DecidableEq, Repr

/-- createLogEntry (polymarket/utils.ts): stamps the entry with the current
    ISO timestamp, supplied here as nowIso. -/
def createLogEntry (nowIso : String) (level : LogLevel) (message : String)
    (details : Option (List (String × String))) : BotLogEntry :=
  { timestamp := nowIso, level := level, message := message, details := details }

/-- A heap of JS arrays of log entries; an array reference is its index. -/
abbrev HeapA : Type := List (List BotLogEntry)

/-- Reading the array behind a reference. -/
def readArr (h : HeapA) (r : Nat) : List BotLogEntry :=
  List.getD h r []

/-- Mutating the array behind a reference in place. -/
def writeArr (h : HeapA) (r : Nat) (v : List BotLogEntry) : HeapA :=
  List.set h r v

/-- The client state holds a reference to its private logs array. -/
structure LogClientState where
  logsRef : Nat
deriving DecidableEq, Repr

/-- getLogs (part_000 lines 51-53): returns the spread copy of this.logs,
    i.e. allocates a fresh array holding the same entries and returns a
    reference to it. -/
def getLogs (h : HeapA) (s : LogClientState) : Nat × HeapA :=
  (List.length h, h ++ [readArr h s.logsRef])

/-- The private log method (part_000 lines 65-68): pushes a new entry onto
    the internal logs array in place. -/
def logPush (h : HeapA) (s : LogClientState) (e : BotLogEntry) : HeapA :=
  writeArr h s.logsRef (readArr h s.logsRef ++ [e])

/-! ### Order placement (src/unnamed/part_000 lines 148-268) -/

/-- Order side (the JS strings BUY and SELL). -/
inductive Side where
  | buy
  | sell
deriving DecidableEq, Repr

/-- OrderArgs (polymarket/types.ts): input of placeOrder. -/
structure OrderArgs where
  tokenId : String
  price : ℚ
  size : ℚ
  side : Side
deriving DecidableEq, Repr

/-- OrderResponse (polymarket/types.ts): output of placeOrder. -/
structure OrderResponse where
  success : Bool
  orderId : Option String
  errorMsg : Option String
  status : Option String
deriving DecidableEq, Repr

/-- The argument object passed to clobClient.createAndPostOrder (part_000
    lines 200-213): the size is Math.floor(order.size) and feeRateBps 0. -/
structure PostedOrder where
  tokenID : String
  price : ℚ
  side : Side
  size : Int
  feeRateBps : Nat
deriving DecidableEq, Repr

/-- The raw response object of createAndPostOrder, of which placeOrder reads
    orderID, id and status. -/
structure PostResult where
  orderID : Option String
  id : Option String
  status : Option String
deriving DecidableEq, Repr

/-- Up and Down token IDs. -/
structure TokenIds where
  up : String
  down : String
deriving DecidableEq, Repr

/-- PolymarketClientConfig (polymarket/types.ts); a missing environment
    variable shows up as the empty (falsy) string. -/
structure PolymarketClientConfig where
  privateKey : String
  proxyAddress : String
  signatureType : Nat
deriving DecidableEq, Repr

/-- Network operations performed by order placement: deriving API
    credentials during initClobClient, and posting an order. -/
inductive NetCall where
  | deriveApiKey
  | postOrder (o : PostedOrder)
deriving DecidableEq, Repr

/-- Environment for the CLOB client: the outcome of initClobClient
    (createOrDeriveApiKey, part_000 lines 73-114; on throw the error message)
    and of createAndPostOrder per posted order. -/
structure ClobEnv where
  initResult : Except String Unit
  postResult : PostedOrder → Except String PostResult

/-- The argument object passed to createAndPostOrder for a given order
    (part_000 lines 201-207): the size is floored and feeRateBps is 0. -/
def postedOf (order : OrderArgs) : PostedOrder :=
  { tokenID := order.tokenId, price := order.price, side := order.side
    size := ⌊order.size⌋, feeRateBps := 0 }

/-- The body of the try block from line 200 on: post the order and shape the
    success response (orderId = orderID || id, status = status || "submitted");
    a thrown error is the Except.error case, caught by placeOrder. -/
def postAfterInit (env : ClobEnv) (order : OrderArgs) :
    OrderResponse × List NetCall :=
  let posted : PostedOrder := postedOf order
  match env.postResult posted with
  | .error m =>
      ({ success := false, orderId := none, errorMsg := some m, status := none },
       [NetCall.postOrder posted])
  | .ok r =>
      ({ success := true
         orderId := jsOrOpt r.orderID r.id
         errorMsg := none
         status := some (jsOrStr r.status "submitted") },
       [NetCall.postOrder posted])

/-- placeOrder (part_000 lines 170-233). inited models the cached
    this.clobClient field (lines 39, 74-76): when false, initClobClient
    derives credentials first and the cache becomes true on success. Every
    thrown error is caught and returned as success:false. Returns the
    response, the new cache state, and the network calls performed. -/
def placeOrder (cfg : PolymarketClientConfig) (env : ClobEnv) (inited : Bool)
    (order : OrderArgs) : OrderResponse × Bool × List NetCall :=
  if cfg.privateKey = "" then
    ({ success := false, orderId := none
       errorMsg := some "Missing private key. Please set POLYMARKET_WALLET_PRIVATE_KEY."
       status := none }, inited, [])
  else if cfg.proxyAddress = "" then
    ({ success := false, orderId := none
       errorMsg := some "Missing proxy address. Please set POLYMARKET_PROXY_WALLET_ADDRESS."
       status := none }, inited, [])
  else
    if inited then
      let pr := postAfterInit env order
      (pr.1, true, pr.2)
    else
      match env.initResult with
      | .error m =>
          ({ success := false, orderId := none, errorMsg := some m, status := none },
           false, [NetCall.deriveApiKey])
      | .ok _ =>
          let pr := postAfterInit env order
          (pr.1, true, NetCall.deriveApiKey :: pr.2)

/-- placeStraddleOrders (part_000 lines 238-268): size = sizeUsd / price,
    BUY the up token, then BUY the down token (unconditionally), and return
    both outcomes. Also returns the new cache state and the concatenated
    network calls of the two placeOrder invocations. -/
def placeStraddleOrders (cfg : PolymarketClientConfig) (env : ClobEnv) (inited : Bool)
    (tokenIds : TokenIds) (price sizeUsd : ℚ) :
    (OrderResponse × OrderResponse) × Bool × List NetCall :=
  let size := sizeUsd / price
  let upRun := placeOrder cfg env inited
    { tokenId := tokenIds.up, price := price, size := size, side := Side.buy }
  let downRun := placeOrder cfg env upRun.2.1
    { tokenId := tokenIds.down, price := price, size := size, side := Side.buy }
  ((upRun.1, downRun.1), downRun.2.1, upRun.2.2 ++ downRun.2.2)

/-- A concrete log entry for the C8 witness. -/
def c8entry : BotLogEntry :=
  createLogEntry "2026-10-11T00:00:00.000Z" LogLevel.info "client ready" none

/-- A valid concrete configuration for the C9 scenario. -/
def c9cfg : PolymarketClientConfig :=
  { privateKey := "0xKey", proxyAddress := "0xProxy", signatureType := 1 }

/-- A CLOB environment in which posting on the up token throws and posting
    on the down token succeeds. -/
def c9env : ClobEnv :=
  { initResult := Except.ok ()
    postResult := fun p =>
      if p.tokenID = "UP" then Except.error "insufficient balance"
      else Except.ok { orderID := some "oid-2", id := none, status := some "live" } }

/-- A CLOB environment whose every operation throws. -/
def c10env : ClobEnv :=
  { initResult := Except.error "rpc unreachable"
    postResult := fun _ => Except.error "rpc unreachable" }

/-- A concrete order for the C10 witness. -/
def c10order : OrderArgs :=
  { tokenId := "TOKEN", price := (48/100 : ℚ), size := (52083/1000 : ℚ), side := Side.buy }


end Poly

namespace BlockRun

theorem errorStatusOutcome_cont_lt (status : Nat) (err : JsError) (attempt maxRetries : Nat)
    (e : JsError) (h : errorStatusOutcome status err attempt maxRetries = TryOutcome.cont e) :
    attempt < maxRetries := by
  unfold errorStatusOutcome at h
  split at h
  · simp at h
  · split at h
    · assumption
    · simp at h

theorem tryAttempt_cont_lt (env : AttemptEnv) (attempt maxRetries : Nat)
    (paymentCost : Option String) (nowMs : Nat) (e : JsError)
    (h : (tryAttempt env attempt maxRetries paymentCost nowMs).outcome = TryOutcome.cont e) :
    attempt < maxRetries := by
  unfold tryAttempt at h
  repeat any_goals split at h
  all_goals first
    | exact errorStatusOutcome_cont_lt _ _ _ _ _ h
    | simp_all

theorem runLoop_spec (nowMs maxRetries : Nat) :
    ∀ (envs : List AttemptEnv) (attempt : Nat) (lastError : Option JsError) (cost : Option String),
      attempt ≤ maxRetries →
      maxRetries + 1 ≤ envs.length + attempt →
      1 ≤ (runLoop nowMs maxRetries envs attempt lastError cost).attempts ∧
      (runLoop nowMs maxRetries envs attempt lastError cost).attempts + attempt ≤ maxRetries + 1 ∧
      (runLoop nowMs maxRetries envs attempt lastError cost).sleeps =
        (List.range' attempt ((runLoop nowMs maxRetries envs attempt lastError cost).attempts - 1)).map backoff := by
  intro envs
  induction envs with
  | nil =>
      intro attempt lastError cost h1 h2
      exfalso
      simp at h2
      omega
  | cons env rest ih =>
      intro attempt lastError cost h1 h2
      simp only [runLoop]
      cases hout : (tryAttempt env attempt maxRetries cost nowMs).outcome with
      | ret r =>
          dsimp only
          refine ⟨by omega, by omega, ?_⟩
          simp [List.range']
      | cont e =>
          have hlt := tryAttempt_cont_lt _ _ _ _ _ _ hout
          obtain ⟨ha, hb, hc⟩ := ih (attempt + 1) (some e)
            (tryAttempt env attempt maxRetries cost nowMs).paymentCost
            (by omega) (by simp at h2 ⊢; omega)
          dsimp only
          refine ⟨by omega, by omega, ?_⟩
          rw [hc]
          have hs : (runLoop nowMs maxRetries rest (attempt + 1) (some e)
              (tryAttempt env attempt maxRetries cost nowMs).paymentCost).attempts + 1 - 1 =
              ((runLoop nowMs maxRetries rest (attempt + 1) (some e)
              (tryAttempt env attempt maxRetries cost nowMs).paymentCost).attempts - 1) + 1 := by
            omega
          rw [hs, List.range'_succ, List.map_cons]
      | thrown e =>
          dsimp only
          by_cases hc1 : ((!(isRetryableError e) && attempt == 0) = true)
          · rw [if_pos hc1]
            dsimp only
            refine ⟨by omega, by omega, ?_⟩
            simp [List.range']
          · rw [if_neg hc1]
            by_cases hc2 : maxRetries ≤ attempt
            · rw [if_pos hc2]
              dsimp only
              refine ⟨by omega, by omega, ?_⟩
              simp [List.range']
            · rw [if_neg hc2]
              obtain ⟨ha, hb, hcc⟩ := ih (attempt + 1) (some e)
                (tryAttempt env attempt maxRetries cost nowMs).paymentCost
                (by omega) (by simp at h2 ⊢; omega)
              dsimp only
              refine ⟨by omega, by omega, ?_⟩
              rw [hcc]
              have hs : (runLoop nowMs maxRetries rest (attempt + 1) (some e)
                  (tryAttempt env attempt maxRetries cost nowMs).paymentCost).attempts + 1 - 1 =
                  ((runLoop nowMs maxRetries rest (attempt + 1) (some e)
                  (tryAttempt env attempt maxRetries cost nowMs).paymentCost).attempts - 1) + 1 := by
                omega
              rw [hs, List.range'_succ, List.map_cons]

end BlockRun

namespace BlockRun

theorem hexDigitChar_inj16 : ∀ a b : Fin 16, hexDigitChar a.val = hexDigitChar b.val → a = b := by
  decide

theorem join_byteToHex_data :
    ∀ (bs : List (Fin 256)) (acc : String),
      (List.foldl (fun r s => r ++ s) acc (bs.map byteToHex)).data = acc.data ++ hexChars bs := by
  intro bs
  induction bs with
  | nil => intro acc; simp [hexChars]
  | cons b bs ih =>
      intro acc
      simp only [List.map_cons, List.foldl_cons, hexChars]
      rw [ih]
      simp [byteToHex]

theorem createNonce_data (bs : List (Fin 256)) :
    (createNonce bs).data = '0' :: 'x' :: hexChars bs := by
  unfold createNonce String.join
  rw [String.data_append, join_byteToHex_data]
  rfl

theorem hexChars_inj : ∀ b1 b2 : List (Fin 256), hexChars b1 = hexChars b2 → b1 = b2 := by
  intro b1
  induction b1 with
  | nil =>
      intro b2 h
      cases b2 with
      | nil => rfl
      | cons c cs => simp [hexChars] at h
  | cons a as ih =>
      intro b2 h
      cases b2 with
      | nil => simp [hexChars] at h
      | cons c cs =>
          simp only [hexChars, List.cons.injEq] at h
          obtain ⟨h1, h2, h3⟩ := h
          have ha : a.val / 16 = c.val / 16 := by
            have hv := a.isLt
            have hw := c.isLt
            have := hexDigitChar_inj16 ⟨a.val / 16, by omega⟩ ⟨c.val / 16, by omega⟩ h1
            simpa using congrArg Fin.val this
          have hb : a.val % 16 = c.val % 16 := by
            have := hexDigitChar_inj16 ⟨a.val % 16, by omega⟩ ⟨c.val % 16, by omega⟩ h2
            simpa using congrArg Fin.val this
          have : a = c := by
            apply Fin.ext
            omega
          rw [this, ih cs h3]

theorem createNonce_inj (b1 b2 : List (Fin 256)) (h : createNonce b1 = createNonce b2) :
    b1 = b2 := by
  have hd := congrArg String.data h
  rw [createNonce_data, createNonce_data] at hd
  simp only [List.cons.injEq] at hd
  exact hexChars_inj _ _ hd.2.2

theorem hexChars_length : ∀ bs : List (Fin 256), (hexChars bs).length = 2 * bs.length := by
  intro bs
  induction bs with
  | nil => simp [hexChars]
  | cons b bs ih => simp [hexChars, ih]; omega

theorem createNonce_length (bs : List (Fin 256)) :
    (createNonce bs).length = 2 + 2 * bs.length := by
  show (createNonce bs).data.length = 2 + 2 * bs.length
  rw [createNonce_data]
  simp [hexChars_length]
  omega

end BlockRun

namespace BlockRun

/-- C1: the claim says a 4xx (non-429) response is terminal at every attempt
    index. The code only fails fast on attempt 0: run with maxRetries = 3
    where attempt 0 sees a 503 and attempt 1 sees a 404 (whose error text the
    classifier marks non-retryable); the loop still sleeps 2000 and 4000 ms
    and issues attempts 2 and 3 before failing, so the 404 observed at
    attempt index 1 was retried, contradicting the claim. -/
theorem clientError_retried_after_first_attempt :
    callBlockRunResponses 0 3 [env503, env404, env404, env404] =
      { result := RunResult.failure
          { name := "Error", message := "BlockRun API error: 404 Not Found - " }
        attempts := 4, sleeps := [1000, 2000, 4000], paidRequests := 0 } ∧
    isRetryableError { name := "Error", message := "BlockRun API error: 404 Not Found - " } = false := by
  decide

/-- C2: the claim says a 402 challenge with no Base-network option fails
    terminally with no retries and no paid requests. The thrown message
    contains the substring "network", so isRetryableError classifies it as
    retryable and the whole cycle is retried maxRetries times (four attempts,
    three backoff sleeps) before failing; zero paid requests do hold. -/
theorem unsupportedNetwork_error_retried :
    callBlockRunResponses 0 3 [envBadNet, envBadNet, envBadNet, envBadNet] =
      { result := RunResult.failure
          { name := "Error"
            message := "Failed to parse payment requirements: Error: BlockRun does not accept Base network payments" }
        attempts := 4, sleeps := [1000, 2000, 4000], paidRequests := 0 } ∧
    isRetryableError
      { name := "Error"
        message := "Failed to parse payment requirements: Error: BlockRun does not accept Base network payments" } = true := by
  decide

/-- C3: for every environment resolving each possible attempt, the loop
    performs at most maxRetries + 1 attempts, and the sleeps observed are
    exactly min(1000 * 2 ^ i, 10000) for consecutive attempt indices i
    starting at 0. -/
theorem callBlockRunResponses_retry_budget (nowMs maxRetries : Nat) (envs : List AttemptEnv)
    (h : maxRetries + 1 ≤ envs.length) :
    (callBlockRunResponses nowMs maxRetries envs).attempts ≤ maxRetries + 1 ∧
    (callBlockRunResponses nowMs maxRetries envs).sleeps =
      (List.range ((callBlockRunResponses nowMs maxRetries envs).attempts - 1)).map
        (fun i => min (1000 * 2 ^ i) 10000) := by
  obtain ⟨h1, h2, h3⟩ := runLoop_spec nowMs maxRetries envs 0 none none (Nat.zero_le _) (by omega)
  unfold callBlockRunResponses
  refine ⟨by omega, ?_⟩
  rw [h3, List.range_eq_range']
  rfl

/-- C3 witness: concrete run with maxRetries = 2 against three 503 responses. -/
theorem callBlockRunResponses_retry_budget_witness :
    (callBlockRunResponses 0 2 [env503, env503, env503]).attempts ≤ 3 ∧
    (callBlockRunResponses 0 2 [env503, env503, env503]).sleeps =
      (List.range ((callBlockRunResponses 0 2 [env503, env503, env503]).attempts - 1)).map
        (fun i => min (1000 * 2 ^ i) 10000) :=
  callBlockRunResponses_retry_budget 0 2 [env503, env503, env503] (by decide)

/-- C4 counterexample: with maxTimeoutSeconds present but equal to 0, the
    authorization window is now + 300 (the JS falsy default), not
    now + maxTimeoutSeconds = now + 0 as the claim states. -/
theorem createAuthorization_zero_timeout_counterexample :
    (createAuthorization "0xFrom"
      { network := "base", asset := "0xAsset", payTo := "0xPay", amount := some "1000"
        maxAmountRequired := none, maxTimeoutSeconds := some 0, scheme := some "exact"
        extraName := none, extraVersion := none, x402Version := none }
      1000000 (List.replicate 32 (0 : Fin 256))).validBefore ≠ (1000000 : Int) + 0 ∧
    (createAuthorization "0xFrom"
      { network := "base", asset := "0xAsset", payTo := "0xPay", amount := some "1000"
        maxAmountRequired := none, maxTimeoutSeconds := some 0, scheme := some "exact"
        extraName := none, extraVersion := none, x402Version := none }
      1000000 (List.replicate 32 (0 : Fin 256))).validBefore = (1000000 : Int) + 300 := by
  constructor
  · decide
  · decide

/-- C4 (amended): the constructed authorization has validAfter = now - 600
    and validBefore = now + maxTimeoutSeconds when maxTimeoutSeconds is
    present and nonzero, and now + 300 when it is absent or zero; the nonce
    is the 0x-prefixed hex encoding of the 32 supplied random bytes (66
    characters) and is injective in those bytes, so distinct random draws
    give distinct nonces. -/
theorem createAuthorization_window_and_nonce (fromAddress : String) (req : PaymentRequirement)
    (now : Nat) (b1 b2 : List (Fin 256))
    (h1 : b1.length = 32) (h2 : b2.length = 32) (hne : b1 ≠ b2) :
    (createAuthorization fromAddress req now b1).validAfter = (now : Int) - 600 ∧
    (createAuthorization fromAddress req now b1).validBefore =
      (now : Int) + (match req.maxTimeoutSeconds with
        | none => (300 : Int)
        | some 0 => (300 : Int)
        | some (k + 1) => (k : Int) + 1) ∧
    (createAuthorization fromAddress req now b1).nonce.length = 66 ∧
    (createAuthorization fromAddress req now b1).nonce ≠
      (createAuthorization fromAddress req now b2).nonce := by
  refine ⟨rfl, ?_, ?_, ?_⟩
  · show (now : Int) + (jsOrNat req.maxTimeoutSeconds 300 : Nat) = _
    cases hmt : req.maxTimeoutSeconds with
    | none => simp [jsOrNat]
    | some t =>
        cases t with
        | zero => simp [jsOrNat]
        | succ k => simp [jsOrNat]
  · show (createNonce b1).length = 66
    rw [createNonce_length, h1]
  · intro hcontra
    exact hne (createNonce_inj b1 b2 hcontra)

/-- C4 witness: a concrete requirement with a 120-second window and two
    distinct 32-byte random draws. -/
theorem createAuthorization_window_and_nonce_witness :
    (createAuthorization "0xFrom" c4req 1700000000 c4bytes1).validAfter =
      (1700000000 : Int) - 600 ∧
    (createAuthorization "0xFrom" c4req 1700000000 c4bytes1).validBefore =
      (1700000000 : Int) + (match c4req.maxTimeoutSeconds with
        | none => (300 : Int)
        | some 0 => (300 : Int)
        | some (k + 1) => (k : Int) + 1) ∧
    (createAuthorization "0xFrom" c4req 1700000000 c4bytes1).nonce.length = 66 ∧
    (createAuthorization "0xFrom" c4req 1700000000 c4bytes1).nonce ≠
      (createAuthorization "0xFrom" c4req 1700000000 c4bytes2).nonce :=
  createAuthorization_window_and_nonce "0xFrom" c4req 1700000000 c4bytes1 c4bytes2
    (by decide) (by decide) (by decide)

end BlockRun

namespace BlockRun

/-- C5: getAIProvider is a fixed first-match priority: every model matching
    isBlockRunModel routes to blockrun; otherwise the OpenAI allow-list or a
    gpt- prefix routes to openai; everything else routes to grok. In
    particular "blockrun/gpt-4o" routes to blockrun although its alias
    target is "openai/gpt-4o", "gpt-4.1" routes to openai, and an
    unrecognized model string routes to grok. -/
theorem getAIProvider_priority :
    (∀ m : String, isBlockRunModel m = true → getAIProvider m = Provider.blockrun) ∧
    (∀ m : String, isBlockRunModel m = false → isOpenAIModel m = true →
      getAIProvider m = Provider.openai) ∧
    (∀ m : String, isBlockRunModel m = false → isOpenAIModel m = false →
      getAIProvider m = Provider.grok) ∧
    getAIProvider "blockrun/gpt-4o" = Provider.blockrun ∧
    getBlockRunModelId "blockrun/gpt-4o" = "openai/gpt-4o" ∧
    getAIProvider "gpt-4.1" = Provider.openai ∧
    getAIProvider "llama-unrecognized" = Provider.grok := by
  refine ⟨?_, ?_, ?_, by decide, by decide, by decide, by decide⟩
  · intro m h
    simp [getAIProvider, h]
  · intro m h1 h2
    simp [getAIProvider, h1, h2]
  · intro m h1 h2
    simp [getAIProvider, h1, h2]

/-- C5 witness: the three priority rules at concrete model names. -/
theorem getAIProvider_priority_witness :
    getAIProvider "blockrun/claude-haiku" = Provider.blockrun ∧
    getAIProvider "gpt-5-nano" = Provider.openai ∧
    getAIProvider "claude-direct" = Provider.grok :=
  ⟨getAIProvider_priority.1 "blockrun/claude-haiku" (by decide),
   getAIProvider_priority.2.1 "gpt-5-nano" (by decide) (by decide),
   getAIProvider_priority.2.2.1 "claude-direct" (by decide) (by decide)⟩

/-- C6: the normalizer is total on raw payloads (it is a function on
    RawResponse), an absent usage object yields all-zero counters, an absent
    choices array yields the empty output text, and the payload
    choices = [(message content "X")] with no usage yields output text "X"
    with all counters zero. -/
theorem transformToResponseResult_defaults :
    (∀ (p : RawResponse) (c : Option String) (n : Nat),
      p.usage = none →
      (transformToResponseResult p c n).usage =
        { inputTokens := 0, outputTokens := 0, totalTokens := 0 }) ∧
    (∀ (p : RawResponse) (c : Option String) (n : Nat),
      p.choices = none →
      (transformToResponseResult p c n).output.map
        (fun m => m.content.map OutputContent.text) = [[""]]) ∧
    (∀ (c : Option String) (n : Nat),
      (transformToResponseResult
        { choices := some [{ message := some { content := some "X", role := none }
                             index := none, finishReason := none }]
          usage := none, created := none, id := none, model := none, citations := none }
        c n).output.map (fun m => m.content.map OutputContent.text) = [["X"]] ∧
      (transformToResponseResult
        { choices := some [{ message := some { content := some "X", role := none }
                             index := none, finishReason := none }]
          usage := none, created := none, id := none, model := none, citations := none }
        c n).usage = { inputTokens := 0, outputTokens := 0, totalTokens := 0 }) := by
  refine ⟨?_, ?_, ?_⟩
  · intro p c n h
    simp [transformToResponseResult, h, jsOrNat]
  · intro p c n h
    simp [transformToResponseResult, h]
  · intro c n
    constructor
    · simp [transformToResponseResult, jsOrStr, jsOrNat]
    · simp [transformToResponseResult, jsOrNat]

/-- C6 witness: a concrete payload with text "X" and no usage. -/
theorem transformToResponseResult_defaults_witness :
    (transformToResponseResult
      { choices := some [{ message := some { content := some "X", role := none }
                           index := none, finishReason := none }]
        usage := none, created := none, id := none, model := none, citations := none }
      none 5).output.map (fun m => m.content.map OutputContent.text) = [["X"]] ∧
    (transformToResponseResult
      { choices := some [{ message := some { content := some "X", role := none }
                           index := none, finishReason := none }]
        usage := none, created := none, id := none, model := none, citations := none }
      none 5).usage = { inputTokens := 0, outputTokens := 0, totalTokens := 0 } :=
  transformToResponseResult_defaults.2.2 none 5

/-- C7: fetchWithTimeout maps a transport abort raised by the cancellation
    signal (an AbortError) to a timeout error carrying the configured
    duration, propagates any other transport failure unchanged, and on
    success disarms the timer and returns the response as-is. -/
theorem fetchWithTimeout_spec (r : HttpResponse) (e : JsError) (m : String) (timeoutMs : Nat)
    (h : e.name ≠ "AbortError") :
    fetchWithTimeout (TransportOutcome.thrown { name := "AbortError", message := m }) timeoutMs =
      { result := Except.error
          { name := "Error"
            message := "Request timeout after " ++ toString timeoutMs ++ "ms" }
        timerCleared := true } ∧
    fetchWithTimeout (TransportOutcome.thrown e) timeoutMs =
      { result := Except.error e, timerCleared := true } ∧
    fetchWithTimeout (TransportOutcome.ok r) timeoutMs =
      { result := Except.ok r, timerCleared := true } := by
  refine ⟨?_, ?_, rfl⟩
  · simp [fetchWithTimeout]
  · simp [fetchWithTimeout, h]

/-- C7 witness: concrete transport outcomes at a 120000 ms deadline. -/
theorem fetchWithTimeout_spec_witness :
    fetchWithTimeout (TransportOutcome.thrown { name := "AbortError", message := "aborted" }) 120000 =
      { result := Except.error
          { name := "Error", message := "Request timeout after " ++ toString 120000 ++ "ms" }
        timerCleared := true } ∧
    fetchWithTimeout
        (TransportOutcome.thrown { name := "TypeError", message := "fetch failed" }) 120000 =
      { result := Except.error { name := "TypeError", message := "fetch failed" }
        timerCleared := true } ∧
    fetchWithTimeout
        (TransportOutcome.ok
          { status := 200, statusText := "OK", bodyText := "", paymentHeader := none
            jsonBody := Except.error { name := "SyntaxError", message := "empty" } }) 120000 =
      { result := Except.ok
          { status := 200, statusText := "OK", bodyText := "", paymentHeader := none
            jsonBody := Except.error { name := "SyntaxError", message := "empty" } }
        timerCleared := true } :=
  fetchWithTimeout_spec
    { status := 200, statusText := "OK", bodyText := "", paymentHeader := none
      jsonBody := Except.error { name := "SyntaxError", message := "empty" } }
    { name := "TypeError", message := "fetch failed" } "aborted" 120000 (by decide)

end BlockRun

namespace Poly

/-- Reading a freshly appended array returns its contents. -/
theorem readArr_concat_self (h : HeapA) (c : List BotLogEntry) :
    readArr (h ++ [c]) h.length = c := by
  unfold readArr
  rw [List.getD_append_right _ _ _ _ (le_refl _)]
  simp

/-- Reading below the old length is unaffected by appended arrays. -/
theorem readArr_append_lt (h t : HeapA) (r : Nat) (hr : r < h.length) :
    readArr (h ++ t) r = readArr h r :=
  List.getD_append _ _ _ _ hr

/-- C8: getLogs returns a fresh array: its reference differs from the
    internal logs reference, writing any value through the returned
    reference leaves the internal logs unchanged, and a second getLogs with
    no intervening logging returns a distinct reference whose contents equal
    those of the first returned array. -/
theorem getLogs_fresh_copy (h : HeapA) (s : LogClientState) (hs : s.logsRef < h.length) :
    (getLogs h s).1 ≠ s.logsRef ∧
    (∀ v, readArr (writeArr (getLogs h s).2 (getLogs h s).1 v) s.logsRef =
      readArr h s.logsRef) ∧
    (getLogs (getLogs h s).2 s).1 ≠ (getLogs h s).1 ∧
    readArr (getLogs (getLogs h s).2 s).2 (getLogs (getLogs h s).2 s).1 =
      readArr (getLogs (getLogs h s).2 s).2 (getLogs h s).1 := by
  refine ⟨?_, ?_, ?_, ?_⟩
  · show h.length ≠ s.logsRef
    omega
  · intro v
    show readArr (writeArr (h ++ [readArr h s.logsRef]) h.length v) s.logsRef =
      readArr h s.logsRef
    unfold readArr writeArr
    rw [List.getD_eq_getElem?_getD, List.getElem?_set_ne (by omega),
      ← List.getD_eq_getElem?_getD]
    exact List.getD_append _ _ _ _ hs
  · show (h ++ [readArr h s.logsRef]).length ≠ h.length
    simp
  · show readArr ((h ++ [readArr h s.logsRef]) ++
        [readArr (h ++ [readArr h s.logsRef]) s.logsRef])
        (h ++ [readArr h s.logsRef]).length =
      readArr ((h ++ [readArr h s.logsRef]) ++
        [readArr (h ++ [readArr h s.logsRef]) s.logsRef]) h.length
    rw [readArr_concat_self]
    rw [readArr_append_lt _ _ _ hs]
    rw [readArr_append_lt _ _ _ (show h.length < (h ++ [readArr h s.logsRef]).length by simp)]
    rw [readArr_concat_self]

end Poly

namespace Poly

/-- C8 witness: a client whose internal logs array (reference 0) holds one
    entry, mutated through the returned reference by emptying it. -/
theorem getLogs_fresh_copy_witness :
    (getLogs [[c8entry]] { logsRef := 0 }).1 ≠ 0 ∧
    readArr (writeArr (getLogs [[c8entry]] { logsRef := 0 }).2
        (getLogs [[c8entry]] { logsRef := 0 }).1 []) 0 =
      readArr [[c8entry]] 0 ∧
    (getLogs (getLogs [[c8entry]] { logsRef := 0 }).2 { logsRef := 0 }).1 ≠
      (getLogs [[c8entry]] { logsRef := 0 }).1 ∧
    readArr (getLogs (getLogs [[c8entry]] { logsRef := 0 }).2 { logsRef := 0 }).2
        (getLogs (getLogs [[c8entry]] { logsRef := 0 }).2 { logsRef := 0 }).1 =
      readArr (getLogs (getLogs [[c8entry]] { logsRef := 0 }).2 { logsRef := 0 }).2
        (getLogs [[c8entry]] { logsRef := 0 }).1 := by
  have t := getLogs_fresh_copy [[c8entry]] { logsRef := 0 } (by decide)
  exact ⟨t.1, t.2.1 [], t.2.2.1, t.2.2.2⟩

/-- Decomposition of placeOrder under a valid configuration with a cold
    client cache and a successful initialization. -/
theorem placeOrder_valid_decomp (cfg : PolymarketClientConfig) (env : ClobEnv)
    (order : OrderArgs) (hk : cfg.privateKey ≠ "") (hp : cfg.proxyAddress ≠ "")
    (hi : env.initResult = Except.ok ()) :
    placeOrder cfg env false order =
      ((postAfterInit env order).1, true, NetCall.deriveApiKey :: (postAfterInit env order).2) := by
  unfold placeOrder
  rw [if_neg hk, if_neg hp, hi]
  rfl

/-- Decomposition of placeOrder under a valid configuration with a warm
    client cache. -/
theorem placeOrder_inited_decomp (cfg : PolymarketClientConfig) (env : ClobEnv)
    (order : OrderArgs) (hk : cfg.privateKey ≠ "") (hp : cfg.proxyAddress ≠ "") :
    placeOrder cfg env true order =
      ((postAfterInit env order).1, true, (postAfterInit env order).2) := by
  unfold placeOrder
  rw [if_neg hk, if_neg hp]
  rfl

/-- postAfterInit always posts exactly the floored order, whatever the
    outcome. -/
theorem postAfterInit_calls (env : ClobEnv) (order : OrderArgs) :
    (postAfterInit env order).2 = [NetCall.postOrder (postedOf order)] := by
  unfold postAfterInit
  dsimp only
  cases h : env.postResult (postedOf order) <;> simp [h]

/-- C9: placeStraddleOrders always attempts both legs sequentially: a BUY on
    the up token then a BUY on the down token, each placeOrder receiving
    size sizeUsd / price; the posted network calls are the derive-credentials
    call followed by both floored orders regardless of either outcome, the
    two reported outcomes are the independent placeOrder results, and in the
    concrete environment where the up post throws, the down order is still
    posted and succeeds. -/
theorem placeStraddleOrders_both_legs (cfg : PolymarketClientConfig) (env : ClobEnv)
    (tokenIds : TokenIds) (price sizeUsd : ℚ)
    (hk : cfg.privateKey ≠ "") (hp : cfg.proxyAddress ≠ "")
    (hi : env.initResult = Except.ok ()) :
    (placeStraddleOrders cfg env false tokenIds price sizeUsd).1.1 =
      (placeOrder cfg env false
        { tokenId := tokenIds.up, price := price, size := sizeUsd / price, side := Side.buy }).1 ∧
    (placeStraddleOrders cfg env false tokenIds price sizeUsd).1.2 =
      (placeOrder cfg env true
        { tokenId := tokenIds.down, price := price, size := sizeUsd / price, side := Side.buy }).1 ∧
    (placeStraddleOrders cfg env false tokenIds price sizeUsd).2.2 =
      [NetCall.deriveApiKey,
       NetCall.postOrder (postedOf
         { tokenId := tokenIds.up, price := price, size := sizeUsd / price, side := Side.buy }),
       NetCall.postOrder (postedOf
         { tokenId := tokenIds.down, price := price, size := sizeUsd / price, side := Side.buy })] ∧
    (placeStraddleOrders c9cfg c9env false { up := "UP", down := "DOWN" } (1/2 : ℚ) 25).1 =
      ({ success := false, orderId := none, errorMsg := some "insufficient balance"
         status := none },
       { success := true, orderId := some "oid-2", errorMsg := none, status := some "live" }) := by
  have hup := placeOrder_valid_decomp cfg env
    { tokenId := tokenIds.up, price := price, size := sizeUsd / price, side := Side.buy } hk hp hi
  refine ⟨rfl, ?_, ?_, by decide⟩
  · show (placeOrder cfg env
        (placeOrder cfg env false
          { tokenId := tokenIds.up, price := price, size := sizeUsd / price, side := Side.buy }).2.1
        { tokenId := tokenIds.down, price := price, size := sizeUsd / price, side := Side.buy }).1 =
      (placeOrder cfg env true
        { tokenId := tokenIds.down, price := price, size := sizeUsd / price, side := Side.buy }).1
    rw [hup]
  · show (placeOrder cfg env false
        { tokenId := tokenIds.up, price := price, size := sizeUsd / price, side := Side.buy }).2.2 ++
      (placeOrder cfg env
        (placeOrder cfg env false
          { tokenId := tokenIds.up, price := price, size := sizeUsd / price, side := Side.buy }).2.1
        { tokenId := tokenIds.down, price := price, size := sizeUsd / price, side := Side.buy }).2.2 = _
    rw [hup]
    dsimp only
    rw [placeOrder_inited_decomp cfg env
      { tokenId := tokenIds.down, price := price, size := sizeUsd / price, side := Side.buy } hk hp]
    dsimp only
    rw [postAfterInit_calls, postAfterInit_calls]
    rfl

/-- C9 witness: the straddle contract at the concrete configuration and
    environment of the scenario. -/
theorem placeStraddleOrders_both_legs_witness :
    (placeStraddleOrders c9cfg c9env false { up := "UP", down := "DOWN" } (1/2 : ℚ) 25).1.1 =
      (placeOrder c9cfg c9env false
        { tokenId := "UP", price := (1/2 : ℚ), size := 25 / (1/2 : ℚ), side := Side.buy }).1 ∧
    (placeStraddleOrders c9cfg c9env false { up := "UP", down := "DOWN" } (1/2 : ℚ) 25).1.2 =
      (placeOrder c9cfg c9env true
        { tokenId := "DOWN", price := (1/2 : ℚ), size := 25 / (1/2 : ℚ), side := Side.buy }).1 ∧
    (placeStraddleOrders c9cfg c9env false { up := "UP", down := "DOWN" } (1/2 : ℚ) 25).2.2 =
      [NetCall.deriveApiKey,
       NetCall.postOrder (postedOf
         { tokenId := "UP", price := (1/2 : ℚ), size := 25 / (1/2 : ℚ), side := Side.buy }),
       NetCall.postOrder (postedOf
         { tokenId := "DOWN", price := (1/2 : ℚ), size := 25 / (1/2 : ℚ), side := Side.buy })] ∧
    (placeStraddleOrders c9cfg c9env false { up := "UP", down := "DOWN" } (1/2 : ℚ) 25).1 =
      ({ success := false, orderId := none, errorMsg := some "insufficient balance"
         status := none },
       { success := true, orderId := some "oid-2", errorMsg := none, status := some "live" }) :=
  placeStraddleOrders_both_legs c9cfg c9env { up := "UP", down := "DOWN" } (1/2 : ℚ) 25
    (by decide) (by decide) rfl

/-- C10: placeOrder is a total function into OrderResponse (it never throws):
    a falsy private key or proxy address yields success:false with the
    documented message and no network call; a throwing initialization is
    caught and returned as success:false with the thrown message after only
    the credential-derivation call; a throwing post is caught and returned as
    success:false with the thrown message; a successful post yields
    success:true with orderId = orderID || id and status defaulting to
    "submitted". -/
theorem placeOrder_never_throws (cfgA cfgB cfg : PolymarketClientConfig) (env : ClobEnv)
    (inited : Bool) (order : OrderArgs) (m : String) (r : PostResult)
    (hA : cfgA.privateKey = "")
    (hB1 : cfgB.privateKey ≠ "") (hB2 : cfgB.proxyAddress = "")
    (hk : cfg.privateKey ≠ "") (hp : cfg.proxyAddress ≠ "") :
    placeOrder cfgA env inited order =
      ({ success := false, orderId := none
         errorMsg := some "Missing private key. Please set POLYMARKET_WALLET_PRIVATE_KEY."
         status := none }, inited, []) ∧
    placeOrder cfgB env inited order =
      ({ success := false, orderId := none
         errorMsg := some "Missing proxy address. Please set POLYMARKET_PROXY_WALLET_ADDRESS."
         status := none }, inited, []) ∧
    (env.initResult = Except.error m →
      placeOrder cfg env false order =
        ({ success := false, orderId := none, errorMsg := some m, status := none },
         false, [NetCall.deriveApiKey])) ∧
    (env.postResult (postedOf order) = Except.error m →
      (placeOrder cfg env true order).1 =
        { success := false, orderId := none, errorMsg := some m, status := none }) ∧
    (env.postResult (postedOf order) = Except.ok r →
      (placeOrder cfg env true order).1 =
        { success := true, orderId := jsOrOpt r.orderID r.id, errorMsg := none
          status := some (jsOrStr r.status "submitted") }) := by
  refine ⟨?_, ?_, ?_, ?_, ?_⟩
  · simp [placeOrder, hA]
  · simp [placeOrder, hB1, hB2]
  · intro h
    unfold placeOrder
    rw [if_neg hk, if_neg hp, h]
    rfl
  · intro h
    rw [placeOrder_inited_decomp cfg env order hk hp]
    unfold postAfterInit
    dsimp only
    rw [h]
  · intro h
    rw [placeOrder_inited_decomp cfg env order hk hp]
    unfold postAfterInit
    dsimp only
    rw [h]

/-- C10 witness: concrete configurations and a concrete environment whose
    initialization throws, with a concrete raw post result. -/
theorem placeOrder_never_throws_witness :
    placeOrder { privateKey := "", proxyAddress := "0xProxy", signatureType := 1 }
        c10env true c10order =
      ({ success := false, orderId := none
         errorMsg := some "Missing private key. Please set POLYMARKET_WALLET_PRIVATE_KEY."
         status := none }, true, []) ∧
    placeOrder { privateKey := "0xKey", proxyAddress := "", signatureType := 1 }
        c10env true c10order =
      ({ success := false, orderId := none
         errorMsg := some "Missing proxy address. Please set POLYMARKET_PROXY_WALLET_ADDRESS."
         status := none }, true, []) ∧
    (c10env.initResult = Except.error "rpc unreachable" →
      placeOrder c9cfg c10env false c10order =
        ({ success := false, orderId := none, errorMsg := some "rpc unreachable", status := none },
         false, [NetCall.deriveApiKey])) ∧
    (c10env.postResult (postedOf c10order) = Except.error "rpc unreachable" →
      (placeOrder c9cfg c10env true c10order).1 =
        { success := false, orderId := none, errorMsg := some "rpc unreachable", status := none }) ∧
    (c10env.postResult (postedOf c10order) =
        Except.ok { orderID := none, id := some "fallback-id", status := none } →
      (placeOrder c9cfg c10env true c10order).1 =
        { success := true, orderId := jsOrOpt none (some "fallback-id"), errorMsg := none
          status := some (jsOrStr none "submitted") }) :=
  placeOrder_never_throws
    { privateKey := "", proxyAddress := "0xProxy", signatureType := 1 }
    { privateKey := "0xKey", proxyAddress := "", signatureType := 1 }
    c9cfg c10env true c10order "rpc unreachable"
    { orderID := none, id := some "fallback-id", status := none }
    rfl (by decide) rfl (by decide) (by decide)

end Poly
